import Mathlib

/-!
Verification of the trip-scheduling engine of `cementera-ops` (`src/app.py`).

The engine is embedded shallowly:

* Python `float` quantities (volumes, parameter values) are embedded as exact
  rationals `ℚ`.  Addition and subtraction are realised through `Rat.divInt`
  (`qadd`, `qsub`) so that every definition evaluates inside the kernel; the
  lemmas `qadd_eq` and `qsub_eq` identify them with `+` and `-` on `ℚ`.
* times of day are minutes `: ℤ`; `datetime.strftime("%H:%M")` followed by
  re-parsing on a fixed date is minute arithmetic modulo `1440` (`tod`).
* the sqlite tables (`parametros`, `mixers`, `dosif`, `agenda`) are lists of
  records inside `DBState`; SQL `INSERT` appends, `ORDER BY` is an insertion
  sort on the query key.
* `HH:MM` strings stored in the `agenda` table are genuine `String`s, parsed
  by `parse_hhmm` (the embedding of `datetime.strptime(_, "%Y-%m-%d %H:%M")`
  restricted to the time component, the date being the row's own date).
* Python exceptions are `Except String`; the unbounded `while` loop of
  `planificar_proyecto_auto` receives explicit fuel and returns `none` when
  the fuel is exhausted.
-/

/-! ## Exact rational arithmetic that evaluates -/

/-- Addition on `ℚ` via `Rat.divInt`, so that it reduces under `decide`. -/
def qadd (a b : ℚ) : ℚ := Rat.divInt (a.num * b.den + b.num * a.den) (a.den * b.den)

/-- Subtraction on `ℚ` via `Rat.divInt`, so that it reduces under `decide`. -/
def qsub (a b : ℚ) : ℚ := Rat.divInt (a.num * b.den - b.num * a.den) (a.den * b.den)

theorem qadd_eq (a b : ℚ) : qadd a b = a + b := by
  unfold qadd
  rw [Rat.divInt_eq_div]
  push_cast
  conv_rhs => rw [← Rat.num_div_den a, ← Rat.num_div_den b]
  have ha : ((a.den : ℚ)) ≠ 0 := by positivity
  have hb : ((b.den : ℚ)) ≠ 0 := by positivity
  field_simp

theorem qsub_eq (a b : ℚ) : qsub a b = a - b := by
  unfold qsub
  rw [Rat.divInt_eq_div]
  push_cast
  conv_rhs => rw [← Rat.num_div_den a, ← Rat.num_div_den b]
  have ha : ((a.den : ℚ)) ≠ 0 := by positivity
  have hb : ((b.den : ℚ)) ≠ 0 := by positivity
  field_simp
  ring

/-- Python `int(x)` on a numeric value: truncation toward zero. -/
def pyInt (q : ℚ) : ℤ := q.num.tdiv q.den

theorem pyInt_intCast (z : ℤ) : pyInt (z : ℚ) = z := by
  unfold pyInt
  simp [Rat.num_intCast, Rat.den_intCast, Int.tdiv_one]

/-! ## Characters and `HH:MM` strings -/

/-- ASCII upper-casing of one character (Python `str.upper` on ASCII data). -/
def upChar (c : Char) : Char :=
  if 97 ≤ c.toNat ∧ c.toNat ≤ 122 then Char.ofNat (c.toNat - 32) else c

/-- ASCII upper-casing of a string. -/
def upStr (s : String) : String := ⟨s.data.map upChar⟩

/-- ASCII lower-casing of one character (sqlite `lower()` on ASCII data). -/
def lowChar (c : Char) : Char :=
  if 65 ≤ c.toNat ∧ c.toNat ≤ 90 then Char.ofNat (c.toNat + 32) else c

/-- ASCII lower-casing of a string. -/
def lowStr (s : String) : String := ⟨s.data.map lowChar⟩

/-- Python `str.strip()`: drop surrounding whitespace. -/
def pyStrip (s : String) : String :=
  ⟨(s.data.dropWhile Char.isWhitespace).reverse.dropWhile Char.isWhitespace |>.reverse⟩

/-- The numeric value of an ASCII digit character. -/
def digitVal (c : Char) : Option Nat :=
  if 48 ≤ c.toNat ∧ c.toNat ≤ 57 then some (c.toNat - 48) else none

/-- A field of one or two digit characters, as accepted by `strptime`'s
`%H` / `%M` directives. -/
def field12 : List Char → Option Nat
  | [c] => digitVal c
  | [c, d] => match digitVal c, digitVal d with
    | some x, some y => some (10 * x + y)
    | _, _ => none
  | _ => none

/-- Split a character list at every occurrence of `sep`. -/
def splitCh (sep : Char) : List Char → List (List Char)
  | [] => [[]]
  | c :: cs =>
    let r := splitCh sep cs
    if c = sep then [] :: r
    else match r with
      | [] => [[c]]
      | g :: gs => (c :: g) :: gs

/-- `_dt` / `datetime.strptime(_, "%H:%M")`: parse an `HH:MM` string into
minutes after midnight.  `strptime` demands one or two digits for each of
`%H` (value `0..23`) and `%M` (value `0..59`), a single `:` between them and
nothing else. -/
def parse_hhmm (s : String) : Option ℤ :=
  match splitCh (Char.ofNat 58) s.data with
  | [h, m] => match field12 h, field12 m with
    | some hv, some mv => if hv < 24 ∧ mv < 60 then some (60 * hv + mv) else none
    | _, _ => none
  | _ => none

/-- The ASCII digit character of `d < 10`. -/
def digitChar (d : Nat) : Char := Char.ofNat (48 + d)

/-- Two-digit zero-padded rendering of `0 ≤ n < 100`. -/
def pad2 (n : ℤ) : String :=
  let m := n.toNat
  if m < 10 then ⟨[digitChar 0, digitChar m]⟩ else ⟨[digitChar (m / 10), digitChar (m % 10)]⟩

/-- `strftime("%H:%M")` of a minute count within one day. -/
def toHHMM (m : ℤ) : String := pad2 (m / 60) ++ ":" ++ pad2 (m % 60)

/-- Minutes-of-day of an unbounded minute count: the composition
`strftime("%H:%M")` / re-parse used throughout the engine. -/
def tod (x : ℤ) : ℤ := x % 1440

/-! ## `calcular_tiempos` (TimeWindowCalculator) -/

/-- The variable load duration of `calcular_tiempos`
(`math.ceil(11 * (volumen_m3 / 8.5))`), written over the numerator and
denominator so that it evaluates: `22 * v.num / (17 * v.den) = 11 * v / 8.5`. -/
def tiempo_carga_min (v : ℚ) : ℤ := ⌈Rat.divInt (22 * v.num) (17 * (v.den : ℤ))⌉

theorem tiempo_carga_min_eq (v : ℚ) :
    tiempo_carga_min v = ⌈(11 : ℚ) * (v / (17 / 2))⌉ := by
  unfold tiempo_carga_min
  rw [Rat.divInt_eq_div]
  push_cast
  congr 1
  conv_rhs => rw [← Rat.num_div_den v]
  have hv : ((v.den : ℚ)) ≠ 0 := by positivity
  field_simp
  ring

/-- `calcular_tiempos` on an already-parsed anchor time (minutes): the body of
the source function after `datetime.strptime`.  All seven results are raw
minute offsets relative to the parse base, exactly like the `datetime` values
of the source (they may be negative, i.e. on the previous day). -/
def calcular_tiempos_min (Q min_viaje_ida : ℤ) (volumen_m3 : ℚ)
    (tiempo_descarga_min margen_lavado_min tiempo_cambio_obra_min : ℤ) :
    ℤ × ℤ × ℤ × ℤ × ℤ × ℤ × ℤ :=
  let R := Q - min_viaje_ida
  let tiempo_carga := tiempo_carga_min volumen_m3
  let S := R - tiempo_carga
  let T := R
  let U := Q + tiempo_descarga_min
  let V := U + tiempo_cambio_obra_min
  let W := V + min_viaje_ida
  let X := W + margen_lavado_min
  (R, S, T, U, V, W, X)

/-- `calcular_tiempos`: parse the (stripped) `HH:MM` anchor string, then
compute the seven milestones; a malformed anchor raises (`none`). -/
def calcular_tiempos (hora_Q : String) (min_viaje_ida : ℤ) (volumen_m3 : ℚ)
    (tiempo_descarga_min margen_lavado_min tiempo_cambio_obra_min : ℤ) :
    Option (ℤ × ℤ × ℤ × ℤ × ℤ × ℤ × ℤ) :=
  (parse_hhmm (pyStrip hora_Q)).map fun q =>
    calcular_tiempos_min q min_viaje_ida volumen_m3
      tiempo_descarga_min margen_lavado_min tiempo_cambio_obra_min

/-- The load duration exactly as the specification words it:
`ceil(baseLoadMin × volumeM3 / referenceCapacityM3)` with `baseLoadMin = 11`
and `referenceCapacityM3 = 8.5`.  (Comparison definition for the refinement
claim; written from the spec, not from the source.) -/
def specLoadDuration (volumeM3 : ℚ) : ℤ := ⌈(11 : ℚ) * volumeM3 / (17 / 2)⌉

/-- The milestone formulas exactly as the specification words them
(§4.1).  (Comparison definition for the refinement claim; written from the
spec, not from the source.) -/
def specTimeWindow (Q travelOutMin : ℤ) (volumeM3 : ℚ)
    (dischargeMin washMarginMin siteChangeMin : ℤ) :
    ℤ × ℤ × ℤ × ℤ × ℤ × ℤ × ℤ :=
  let R := Q - travelOutMin
  let S := R - specLoadDuration volumeM3
  let T := R
  let U := Q + dischargeMin
  let V := U + siteChangeMin
  let W := V + travelOutMin
  let X := W + washMarginMin
  (R, S, T, U, V, W, X)

/-! ## Data model: the sqlite tables as lists of records -/

/-- One row of the `mixers` table. -/
structure Mixer where
  id : ℤ
  unidad_id : String
  placa : String
  capacidad_m3 : ℚ
  tipo : String
  habilitado : ℤ
deriving DecidableEq

/-- One row of the `dosif` table. -/
structure Dosif where
  codigo : String
  habilitado : ℤ
deriving DecidableEq

/-- One row of the `agenda` table (a Booking). -/
structure AgendaRow where
  id : ℤ
  cliente : String
  proyecto : String
  fecha : String
  hora_Q : String
  min_viaje_ida : ℤ
  volumen_m3 : ℚ
  estado : String
  requiere_bomba : String
  dosificadora : String
  dosif_codigo : String
  mixer_id : ℤ
  hora_R : String
  hora_S : String
  hora_T : String
  hora_U : String
  hora_V : String
  hora_W : String
  hora_X : String
  fecha_hora_q : String
  ciclo_total_min : ℤ
  min_viaje_regreso : ℤ
deriving DecidableEq

/-- The data store: the four tables plus the autoincrement counters. -/
structure DBState where
  parametros : List (String × ℚ)
  mixers : List Mixer
  dosif : List Dosif
  agenda : List AgendaRow
  nextAgendaId : ℤ
  nextMixerId : ℤ
deriving DecidableEq

/-! ## `_overlap` and `check_conflicts` (ConflictDetector) -/

/-- `_overlap`: two intervals overlap iff `max(a0,b0) < min(a1,b1)`. -/
def _overlap (a0 a1 b0 b1 : ℤ) : Bool := decide (max a0 b0 < min a1 b1)

/-- The `id<>?` clause of the conflict queries. -/
def notExcluded (exclude_agenda_id : Option ℤ) (id : ℤ) : Bool :=
  match exclude_agenda_id with
  | none => true
  | some e => decide (id ≠ e)

/-- The conflict strings `f"#{aid} {proy} [S:{s2}→X:{x2}]"`. -/
def fmtConfMixer (r : AgendaRow) : String :=
  "#" ++ toString r.id ++ " " ++ r.proyecto ++ " [S:" ++ r.hora_S ++ "→X:" ++ r.hora_X ++ "]"

/-- The conflict strings `f"#{aid} {proy} [S:{s2}→T:{t2}]"`. -/
def fmtConfDosif (r : AgendaRow) : String :=
  "#" ++ toString r.id ++ " " ++ r.proyecto ++ " [S:" ++ r.hora_S ++ "→T:" ++ r.hora_T ++ "]"

/-- The mixer half of `check_conflicts`: rows of the same date and mixer
(minus the excluded id), their `[S, X)` windows parsed from the stored
strings; rows whose strings fail to parse are skipped by the bare `except`. -/
def conf_mixer (fecha_str : String) (mixer_id : ℤ) (S X : ℤ)
    (exclude_agenda_id : Option ℤ) : List AgendaRow → List String
  | [] => []
  | r :: rs =>
    let rest := conf_mixer fecha_str mixer_id S X exclude_agenda_id rs
    if r.fecha = fecha_str ∧ r.mixer_id = mixer_id ∧
        notExcluded exclude_agenda_id r.id = true then
      match parse_hhmm r.hora_S, parse_hhmm r.hora_X with
      | some s2, some x2 => if _overlap S X s2 x2 = true then fmtConfMixer r :: rest else rest
      | _, _ => rest
    else rest

/-- The dosing half of `check_conflicts`: rows of the same date and dosing
code, their `[S, T)` windows; parse failures are skipped. -/
def conf_dosif (fecha_str : String) (dosif_codigo : String) (S T : ℤ)
    (exclude_agenda_id : Option ℤ) : List AgendaRow → List String
  | [] => []
  | r :: rs =>
    let rest := conf_dosif fecha_str dosif_codigo S T exclude_agenda_id rs
    if r.fecha = fecha_str ∧ r.dosif_codigo = dosif_codigo ∧
        notExcluded exclude_agenda_id r.id = true then
      match parse_hhmm r.hora_S, parse_hhmm r.hora_T with
      | some s2, some t2 => if _overlap S T s2 t2 = true then fmtConfDosif r :: rest else rest
      | _, _ => rest
    else rest

/-- `check_conflicts`: mixer conflicts against `[S, X)`, dosing conflicts
against `[S, T)`; an empty (falsy) dosing code skips the dosing query. -/
def check_conflicts (rows : List AgendaRow) (fecha_str : String) (mixer_id : ℤ)
    (dosif_codigo : String) (S T X : ℤ) (exclude_agenda_id : Option ℤ) :
    List String × List String :=
  (conf_mixer fecha_str mixer_id S X exclude_agenda_id rows,
   if dosif_codigo = "" then []
   else conf_dosif fecha_str dosif_codigo S T exclude_agenda_id rows)

/-! ## Registries: `dosif_habilitadas`, `mixers_auto_std`, `upsert_mixer_by_unidad` -/

/-- Insert into a list sorted by `le` (stable insertion sort step). -/
def insertBy (le : α → α → Bool) (x : α) : List α → List α
  | [] => [x]
  | y :: ys => if le x y then x :: y :: ys else y :: insertBy le x ys

/-- Stable insertion sort: the embedding of SQL `ORDER BY`. -/
def sortBy (le : α → α → Bool) (l : List α) : List α := l.foldr (insertBy le) []

theorem mem_insertBy (le : α → α → Bool) (x a : α) (l : List α) :
    a ∈ insertBy le x l ↔ a = x ∨ a ∈ l := by
  induction l with
  | nil => simp [insertBy]
  | cons y ys ih =>
    by_cases h : le x y = true
    · simp [insertBy, h]
    · simp [insertBy, h, ih]
      tauto

theorem mem_sortBy (le : α → α → Bool) (a : α) (l : List α) :
    a ∈ sortBy le l ↔ a ∈ l := by
  induction l with
  | nil => simp [sortBy]
  | cons y ys ih =>
    simp only [sortBy, List.foldr_cons] at ih ⊢
    rw [mem_insertBy]
    simp [ih]

/-- `ORDER BY codigo` on strings (sqlite binary collation). -/
def strLE (a b : String) : Bool := decide (a ≤ b)

/-- `ORDER BY capacidad_m3 DESC, id`. -/
def mixerOrd (a b : Mixer) : Bool :=
  decide (b.capacidad_m3 < a.capacidad_m3 ∨ (a.capacidad_m3 = b.capacidad_m3 ∧ a.id ≤ b.id))

/-- `dosif_habilitadas`: enabled dosing-unit codes, ordered by code. -/
def dosif_habilitadas (st : DBState) : List String :=
  (sortBy strLE ((st.dosif.filter fun d => decide (d.habilitado = 1)).map Dosif.codigo))

/-- `mixers_auto_std`: enabled mixers ordered by capacity (descending) then
id, then the pandas filter `tipo.upper() != "SANY"`. -/
def mixers_auto_std (st : DBState) : List Mixer :=
  (sortBy mixerOrd (st.mixers.filter fun m => decide (m.habilitado = 1))).filter
    fun m => decide (upStr m.tipo ≠ "SANY")

/-- The type normalisation of `upsert_mixer_by_unidad`:
`"SANNY" if str(tipo).strip().upper() in ["SANY", "SANNY"] else "STD"`. -/
def tipo_norm (tipo : String) : String :=
  if upStr (pyStrip tipo) = "SANY" ∨ upStr (pyStrip tipo) = "SANNY" then "SANNY" else "STD"

/-- `upsert_mixer_by_unidad`: update the row with this `unidad_id` if it
exists, otherwise insert a fresh row; `tipo` is normalised either way. -/
def upsert_mixer_by_unidad (st : DBState) (unidad_id placa : String)
    (capacidad_m3 : ℚ) (tipo : String) (habilitado : ℤ) : DBState :=
  if st.mixers.any fun m => decide (m.unidad_id = unidad_id) then
    { st with mixers := st.mixers.map (fun m =>
        if m.unidad_id = unidad_id then
          { m with placa := placa, capacidad_m3 := capacidad_m3,
                   tipo := tipo_norm tipo, habilitado := habilitado }
        else m) }
  else
    { st with
        mixers := st.mixers ++
          [Mixer.mk st.nextMixerId unidad_id placa capacidad_m3 (tipo_norm tipo) habilitado],
        nextMixerId := st.nextMixerId + 1 }

/-! ## `get_param` (parameter store) -/

/-- `SELECT valor FROM parametros WHERE lower(nombre)=lower(?)`: first row
whose name matches case-insensitively. -/
def lookupParam (ps : List (String × ℚ)) (name : String) : Option ℚ :=
  match ps.find? fun p => decide (lowStr p.1 = lowStr name) with
  | some p => some p.2
  | none => none

/-- `get_param` (the later, overriding definition at `src/app.py:630`):
return the stored value on a case-insensitive hit; on a miss insert and
return the default when one is supplied, otherwise raise. -/
def get_param (st : DBState) (name : String) (default : Option ℚ) :
    Except String (DBState × ℚ) :=
  match lookupParam st.parametros name with
  | some v => .ok (st, v)
  | none =>
    match default with
    | some d => .ok ({ st with parametros := st.parametros ++ [(name, d)] }, d)
    | none => .error ("Falta el parámetro " ++ name ++ ". Agrega este parámetro en la pestaña Parámetros.")

deriving instance DecidableEq for Except

/-! ## `asignar_viaje_factible` (FeasibleSlotSearch) -/

/-- One feasible assignment: chosen mixer, dosing unit and volume, the anchor
`Q` as an absolute minute count from the service date's midnight, and the raw
milestone offsets returned by `calcular_tiempos`. -/
structure Asign where
  mixer_id : ℤ
  dosif : String
  volumen_m3 : ℚ
  Q : ℤ
  R : ℤ
  S : ℤ
  T : ℤ
  U : ℤ
  V : ℤ
  W : ℤ
  X : ℤ
deriving DecidableEq

/-- The inner dosing-unit loop: first dosing code for which both conflict
lists come back empty. -/
def try_dosifs (rows : List AgendaRow) (fecha_sel : String) (mid : ℤ)
    (S T X : ℤ) : List String → Option String
  | [] => none
  | dcode :: ds =>
    if check_conflicts rows fecha_sel mid dcode S T X none = ([], []) then some dcode
    else try_dosifs rows fecha_sel mid S T X ds

/-- The mixer loop of one attempt: for each eligible mixer cap the volume at
its capacity, compute the milestone set at the current anchor (as its
time-of-day, like `Q_dt.strftime("%H:%M")`), and try every dosing unit. -/
def try_mixers (rows : List AgendaRow) (fecha_sel : String) (volumen_m3 : ℚ)
    (min_ida tiempo_descarga_min margen_lavado_min tiempo_cambio_obra_min : ℤ)
    (dosifs : List String) (Q : ℤ) : List Mixer → Option Asign
  | [] => none
  | m :: ms =>
    match calcular_tiempos_min (tod Q) min_ida (min volumen_m3 m.capacidad_m3)
        tiempo_descarga_min margen_lavado_min tiempo_cambio_obra_min with
    | (R, S, T, U, V, W, X) =>
      match try_dosifs rows fecha_sel m.id (tod S) (tod T) (tod X) dosifs with
      | some dcode =>
        some (Asign.mk m.id dcode (min volumen_m3 m.capacidad_m3) Q R S T U V W X)
      | none =>
        try_mixers rows fecha_sel volumen_m3 min_ida tiempo_descarga_min
          margen_lavado_min tiempo_cambio_obra_min dosifs Q ms

/-- The `while intentos < 8*24` loop: try the current anchor, else advance it
by the slot interval; the attempt counter is the structural recursion. -/
def searchLoop (rows : List AgendaRow) (fecha_sel : String) (volumen_m3 : ℚ)
    (min_ida tiempo_descarga_min margen_lavado_min tiempo_cambio_obra_min : ℤ)
    (dosifs : List String) (mixers : List Mixer) (intervalo_min : ℤ) :
    Nat → ℤ → Option Asign
  | 0, _ => none
  | n + 1, Q =>
    match try_mixers rows fecha_sel volumen_m3 min_ida tiempo_descarga_min
        margen_lavado_min tiempo_cambio_obra_min dosifs Q mixers with
    | some a => some a
    | none =>
      searchLoop rows fecha_sel volumen_m3 min_ida tiempo_descarga_min
        margen_lavado_min tiempo_cambio_obra_min dosifs mixers intervalo_min
        n (Q + intervalo_min)

/-- `asignar_viaje_factible`: read the slot interval (creating it with
default `15` if absent), collect the eligible mixers and dosing units, parse
the desired anchor, and run at most `8 * 24` attempts.  `none` in the result
is the source's `return None` (no mixers/dosing units, or attempts
exhausted); `.error` is an uncaught exception. -/
def asignar_viaje_factible (st : DBState) (fecha_sel Q_str : String)
    (volumen_m3 : ℚ)
    (min_ida tiempo_descarga_min margen_lavado_min tiempo_cambio_obra_min : ℤ) :
    Except String (DBState × Option Asign) :=
  match get_param st "Intervalo_min" (some 15) with
  | .error e => .error e
  | .ok (st1, intervaloQ) =>
    let intervalo_min := pyInt intervaloQ
    let mixers := mixers_auto_std st1
    let dosifs := dosif_habilitadas st1
    if mixers = [] ∨ dosifs = [] then .ok (st1, none)
    else
      match parse_hhmm Q_str with
      | none => .error "ValueError: time data does not match format %H:%M"
      | some q0 =>
        .ok (st1, searchLoop st1.agenda fecha_sel volumen_m3 min_ida
          tiempo_descarga_min margen_lavado_min tiempo_cambio_obra_min
          dosifs mixers intervalo_min (8 * 24) q0)

/-! ## `planificar_proyecto_auto` (ProjectScheduler) -/

/-- One row of the result table (`creado.append({...})`). -/
structure Creado where
  Mixer_ID : ℤ
  Dosif : String
  m3 : ℚ
  Q_llega : String
  R_sale : String
  S_ini_carga : String
  T_fin_carga : String
  U_fin_desc : String
  X_fin_total : String
deriving DecidableEq

/-- The `INSERT INTO agenda` performed for one accepted assignment. -/
def mkAgendaRow (id : ℤ) (cliente proyecto fecha_sel : String) (min_ida : ℤ)
    (requiere_bomba : String) (a : Asign) : AgendaRow :=
  AgendaRow.mk id cliente proyecto fecha_sel (toHHMM (tod a.Q)) min_ida
    a.volumen_m3 "Programado" requiere_bomba a.dosif a.dosif a.mixer_id
    (toHHMM (tod a.R)) (toHHMM (tod a.S)) (toHHMM (tod a.T)) (toHHMM (tod a.U))
    (toHHMM (tod a.V)) (toHHMM (tod a.W)) (toHHMM (tod a.X))
    (fecha_sel ++ " " ++ toHHMM (tod a.Q)) (a.X - a.S) min_ida

/-- Append a fresh agenda row (sqlite `INSERT` with autoincrement id). -/
def insertAgenda (st : DBState) (r : AgendaRow) : DBState :=
  { st with agenda := st.agenda ++ [r], nextAgendaId := st.nextAgendaId + 1 }

/-- The dictionary appended to `creado` for one accepted assignment. -/
def mkCreado (a : Asign) : Creado :=
  Creado.mk a.mixer_id a.dosif a.volumen_m3 (toHHMM (tod a.Q)) (toHHMM (tod a.R))
    (toHHMM (tod a.S)) (toHHMM (tod a.T)) (toHHMM (tod a.U)) (toHHMM (tod a.X))

/-- The `while restante > 0.001` loop of `planificar_proyecto_auto`, with
explicit fuel (`none` = fuel exhausted, a model artefact only; the source
loop has no bound of its own).  On success the state has one inserted agenda
row per trip; on `Infeasible` the `ValueError` propagates and every row
already inserted stays. -/
def planLoop (cliente proyecto fecha_sel : String)
    (min_ida tiempo_descarga_min margen_lavado_min tiempo_cambio_obra_min : ℤ)
    (requiere_bomba : String) :
    Nat → DBState → ℤ → ℚ → List Creado →
    Option (DBState × Except String (List Creado))
  | 0, _, _, _, _ => none
  | fuel + 1, st, Q_actual, restante, creado =>
    if Rat.divInt 1 1000 < restante then
      match asignar_viaje_factible st fecha_sel (toHHMM (tod Q_actual)) restante
          min_ida tiempo_descarga_min margen_lavado_min tiempo_cambio_obra_min with
      | .error e => some (st, .error e)
      | .ok (st1, none) =>
        some (st1, .error "No se encontró disponibilidad (mixers/dosif ocupados).")
      | .ok (st1, some a) =>
        let st2 := insertAgenda st1
          (mkAgendaRow st1.nextAgendaId cliente proyecto fecha_sel min_ida requiere_bomba a)
        planLoop cliente proyecto fecha_sel min_ida tiempo_descarga_min
          margen_lavado_min tiempo_cambio_obra_min requiere_bomba
          fuel st2 (Q_actual + tiempo_descarga_min)
          (max 0 (qsub restante a.volumen_m3)) (creado ++ [mkCreado a])
    else some (st, .ok creado)

/-- `planificar_proyecto_auto`: read the wash margin and site-change
parameters (with defaults `5` and `4`), fail fast when no STD mixer is
enabled, parse the initial anchor, then run the trip loop. -/
def planificar_proyecto_auto (st : DBState) (cliente proyecto fecha_sel hora_Q_ini : String)
    (volumen_total : ℚ) (min_ida tiempo_descarga_min : ℤ) (requiere_bomba : String)
    (fuel : Nat) : Option (DBState × Except String (List Creado)) :=
  match get_param st "Margen_lavado_min" (some 5) with
  | .error e => some (st, .error e)
  | .ok (st1, mlQ) =>
    match get_param st1 "Tiempo_cambio_obra_min" (some 4) with
    | .error e => some (st1, .error e)
    | .ok (st2, tcQ) =>
      if (mixers_auto_std st2).length = 0 then
        some (st2, .error "No hay mixers STD habilitados. Usa el editor para asignar SANY manualmente.")
      else
        match parse_hhmm hora_Q_ini with
        | none => some (st2, .error "ValueError: time data does not match format %H:%M")
        | some q0 =>
          planLoop cliente proyecto fecha_sel min_ida tiempo_descarga_min
            (pyInt mlQ) (pyInt tcQ) requiere_bomba fuel st2 q0 volumen_total []

/-! ## Supporting facts -/

instance decEqZ3 : DecidableEq (ℤ × ℤ × ℤ) := instDecidableEqProd

instance decEqZ4 : DecidableEq (ℤ × ℤ × ℤ × ℤ) := instDecidableEqProd

instance decEqZ5 : DecidableEq (ℤ × ℤ × ℤ × ℤ × ℤ) := instDecidableEqProd

instance decEqZ6 : DecidableEq (ℤ × ℤ × ℤ × ℤ × ℤ × ℤ) := instDecidableEqProd

instance decEqZ7 : DecidableEq (ℤ × ℤ × ℤ × ℤ × ℤ × ℤ × ℤ) := instDecidableEqProd

theorem epsilon_eq : Rat.divInt 1 1000 = (1 : ℚ) / 1000 := by
  rw [Rat.divInt_eq_div]; norm_num

/-! ## Claim C1 -/

/-- Concrete stored booking used for the touching-windows check of C2. -/
def rowTouching : AgendaRow :=
  AgendaRow.mk 1 "cliente" "obraA" "2025-11-03" "11:00" 30 (Rat.divInt 17 2)
    "Programado" "NO" "DF-01" "DF-01" 1 "10:30" "10:30" "10:41" "11:20" "11:24"
    "11:54" "11:00" "2025-11-03 11:00" 90 30

/-- Concrete stored booking used for the overlapping-windows check of C2. -/
def rowOverlapping : AgendaRow :=
  AgendaRow.mk 2 "cliente" "obraB" "2025-11-03" "10:45" 30 (Rat.divInt 17 2)
    "Programado" "NO" "DF-01" "DF-01" 1 "10:15" "10:15" "10:26" "11:05" "11:09"
    "11:39" "10:45" "2025-11-03 10:45" 90 30

/-- C1: `calcular_tiempos` computes the seven milestones exactly by the spec
formulas (`R = Q − travelOut`, `load = ceil(11·v/8.5)`, `S = R − load`,
`T = R`, `U = Q + discharge`, `V = U + siteChange`, `W = V + travelOut`,
`X = W + washMargin`); on `Q=08:00, travel=30, v=8.5, discharge=20, wash=5,
change=4` it returns `R=07:30, S=07:19, T=07:30, U=08:20, V=08:24, W=08:54,
X=08:59`, and the load duration is `11` for volume `8.5` and `16` for
volume `12`. -/
theorem C1_time_window_formulas :
    (∀ (Q t : ℤ) (v : ℚ) (d w c : ℤ),
      calcular_tiempos_min Q t v d w c = specTimeWindow Q t v d w c)
    ∧ calcular_tiempos "08:00" 30 (Rat.divInt 17 2) 20 5 4 =
        some (450, 439, 450, 500, 504, 534, 539)
    ∧ (toHHMM 450 = "07:30" ∧ toHHMM 439 = "07:19" ∧ toHHMM 500 = "08:20" ∧
       toHHMM 504 = "08:24" ∧ toHHMM 534 = "08:54" ∧ toHHMM 539 = "08:59")
    ∧ tiempo_carga_min (Rat.divInt 17 2) = 11
    ∧ tiempo_carga_min 12 = 16 := by
  refine ⟨?_, by decide, by decide, by decide, by decide⟩
  intro Q t v d w c
  simp only [calcular_tiempos_min, specTimeWindow, specLoadDuration,
    tiempo_carga_min_eq, mul_div_assoc]

/-! ## Claim C4 -/

/-- C4: for a non-negative travel time, volume, discharge, wash margin and
site change, the milestones of `calcular_tiempos` satisfy
`S ≤ T = R ≤ Q ≤ U ≤ V ≤ W ≤ X`. -/
theorem C4_milestone_order (Q t : ℤ) (v : ℚ) (d w c : ℤ)
    (ht : 0 ≤ t) (hv : 0 ≤ v) (hd : 0 ≤ d) (hw : 0 ≤ w) (hc : 0 ≤ c) :
    match calcular_tiempos_min Q t v d w c with
    | (R, S, T, U, V, W, X) =>
      S ≤ T ∧ T = R ∧ R ≤ Q ∧ Q ≤ U ∧ U ≤ V ∧ V ≤ W ∧ W ≤ X := by
  have hload : 0 ≤ tiempo_carga_min v := by
    rw [tiempo_carga_min_eq]
    exact Int.ceil_nonneg (mul_nonneg (by norm_num) (div_nonneg hv (by norm_num)))
  change (Q - t - tiempo_carga_min v ≤ Q - t) ∧ (Q - t = Q - t) ∧ (Q - t ≤ Q) ∧
    (Q ≤ Q + d) ∧ (Q + d ≤ Q + d + c) ∧ (Q + d + c ≤ Q + d + c + t) ∧
    (Q + d + c + t ≤ Q + d + c + t + w)
  refine ⟨by omega, rfl, by omega, by omega, by omega, by omega, by omega⟩

/-- Witness for C4 at the end-to-end scenario inputs. -/
theorem C4_milestone_order_witness :
    ((0 : ℤ) ≤ 30 ∧ (0 : ℚ) ≤ Rat.divInt 17 2 ∧ (0 : ℤ) ≤ 20 ∧
     (0 : ℤ) ≤ 5 ∧ (0 : ℤ) ≤ 4) ∧
    (match calcular_tiempos_min 480 30 (Rat.divInt 17 2) 20 5 4 with
     | (R, S, T, U, V, W, X) =>
       S ≤ T ∧ T = R ∧ R ≤ 480 ∧ 480 ≤ U ∧ U ≤ V ∧ V ≤ W ∧ W ≤ X) :=
  ⟨⟨by decide, by decide, by decide, by decide, by decide⟩,
   C4_milestone_order 480 30 (Rat.divInt 17 2) 20 5 4
     (by decide) (by decide) (by decide) (by decide) (by decide)⟩

/-! ## Claim C2 -/

/-- C2: `_overlap` reports two half-open windows as overlapping exactly when
`max(a0,b0) < min(a1,b1)`; consequently `[10:00,10:30)` touching
`[10:30,11:00)` on the same mixer and date is no conflict, while
`[10:00,10:30)` against `[10:15,10:45)` is one. -/
theorem C2_overlap_rule :
    (∀ a0 a1 b0 b1 : ℤ, _overlap a0 a1 b0 b1 = true ↔ max a0 b0 < min a1 b1)
    ∧ check_conflicts [rowTouching] "2025-11-03" 1 "" 600 630 630 none = ([], [])
    ∧ (check_conflicts [rowOverlapping] "2025-11-03" 1 "" 600 630 630 none).1 ≠ [] := by
  refine ⟨?_, by decide, by decide⟩
  intro a0 a1 b0 b1
  simp [_overlap]

/-! ## Claim C9 -/

/-- C9: with an empty (falsy) dosing code the dosing-conflict list of
`check_conflicts` is always empty, whatever bookings exist. -/
theorem C9_falsy_dosif_code (rows : List AgendaRow) (fecha_str : String)
    (mixer_id S T X : ℤ) (excl : Option ℤ) :
    (check_conflicts rows fecha_str mixer_id "" S T X excl).2 = [] := by
  simp [check_conflicts]

/-! ## Claim C3 -/

/-- The empty data store. -/
def emptyDB : DBState := DBState.mk [] [] [] [] 1 1

/-- An enabled 10 m³ high-capacity mixer exactly as the registry stores it
(`upsert_mixer_by_unidad` normalises every SANY/SANNY spelling to `"SANNY"`,
and `seed_data` inserts `"SANNY"` for the 10 m³ units). -/
def sannyMixer : Mixer := Mixer.mk 1 "SANNY-01" "P-001" 10 "SANNY" 1

/-- A hypothetical mixer carrying the misspelt tag `"SANY"` that the filter
of `mixers_auto_std` actually tests for. -/
def sanyMixer : Mixer := Mixer.mk 1 "U-01" "P-002" 10 "SANY" 1

/-- C3 (code bug): the registry normalises the high-capacity tag to
`"SANNY"` (both on `"SANY"` and on `" sany "`), yet `mixers_auto_std` only
filters out the literal `"SANY"`, so an enabled `"SANNY"` unit — the only
spelling the registry and the seed data ever store — survives into the
eligible set of the automatic search, while only the never-stored `"SANY"`
spelling would be excluded. -/
theorem C3_sanny_filter_mismatch :
    tipo_norm "SANY" = "SANNY" ∧ tipo_norm " sany " = "SANNY" ∧
    (upsert_mixer_by_unidad emptyDB "SANNY-01" "P-001" 10 "SANY" 1).mixers = [sannyMixer] ∧
    mixers_auto_std (DBState.mk [] [sannyMixer] [] [] 1 1) = [sannyMixer] ∧
    mixers_auto_std (DBState.mk [] [sanyMixer] [] [] 1 1) = [] := by decide

/-! ## Claim C8 -/

/-- C8: `get_param` matches the stored name case-insensitively and returns
the stored value; on a miss with a default it inserts the pair and returns
the default; on a miss without a default it raises. -/
theorem C8_get_param_contract (st : DBState) (name : String) (dflt : Option ℚ) :
    (∀ name2, lowStr name2 = lowStr name →
        lookupParam st.parametros name2 = lookupParam st.parametros name)
    ∧ (∀ v, lookupParam st.parametros name = some v →
        get_param st name dflt = .ok (st, v))
    ∧ (∀ d, lookupParam st.parametros name = none → dflt = some d →
        get_param st name dflt =
          .ok ({ st with parametros := st.parametros ++ [(name, d)] }, d))
    ∧ (lookupParam st.parametros name = none → dflt = none →
        ∃ msg, get_param st name dflt = .error msg) := by
  refine ⟨?_, ?_, ?_, ?_⟩
  · intro name2 h
    unfold lookupParam
    have hpred : (fun p : String × ℚ => decide (lowStr p.1 = lowStr name2)) =
        (fun p : String × ℚ => decide (lowStr p.1 = lowStr name)) := by
      funext p; rw [h]
    rw [hpred]
  · intro v hv
    unfold get_param
    rw [hv]
  · intro d h1 h2
    unfold get_param
    rw [h1, h2]
  · intro h1 h2
    unfold get_param
    rw [h1, h2]
    exact ⟨_, rfl⟩

/-- A store holding `Margen_Lavado_Min` in mixed case. -/
def paramDB : DBState := DBState.mk [("Margen_Lavado_Min", 10)] [] [] [] 1 1

/-- Witness for C8: a case-insensitive hit, a miss with default (inserted),
and a miss without default (raised). -/
theorem C8_get_param_contract_witness :
    get_param paramDB "margen_lavado_min" none = .ok (paramDB, 10)
    ∧ get_param emptyDB "Intervalo_min" (some 15) =
        .ok ({ emptyDB with parametros := emptyDB.parametros ++ [("Intervalo_min", 15)] }, 15)
    ∧ ∃ msg, get_param emptyDB "Intervalo_min" none = .error msg :=
  ⟨(C8_get_param_contract paramDB "margen_lavado_min" none).2.1 10 (by decide),
   (C8_get_param_contract emptyDB "Intervalo_min" (some 15)).2.2.1 15 (by decide) rfl,
   (C8_get_param_contract emptyDB "Intervalo_min" none).2.2.2 (by decide) rfl⟩

/-! ## Claim C10 -/

theorem conf_mixer_skip (fecha_str : String) (mixer_id S X : ℤ) (e : Option ℤ)
    (r : AgendaRow) (rs : List AgendaRow)
    (h : parse_hhmm r.hora_S = none ∨ parse_hhmm r.hora_X = none) :
    conf_mixer fecha_str mixer_id S X e (r :: rs) =
    conf_mixer fecha_str mixer_id S X e rs := by
  rcases h with h | h
  · by_cases hc : (r.fecha = fecha_str ∧ r.mixer_id = mixer_id ∧ notExcluded e r.id = true)
    · simp [conf_mixer, hc, h]
    · simp [conf_mixer, hc]
  · by_cases hc : (r.fecha = fecha_str ∧ r.mixer_id = mixer_id ∧ notExcluded e r.id = true)
    · cases hS : parse_hhmm r.hora_S with
      | none => simp [conf_mixer, hc, hS]
      | some s2 => simp [conf_mixer, hc, hS, h]
    · simp [conf_mixer, hc]

theorem conf_dosif_skip (fecha_str dcode : String) (S T : ℤ) (e : Option ℤ)
    (r : AgendaRow) (rs : List AgendaRow)
    (h : parse_hhmm r.hora_S = none ∨ parse_hhmm r.hora_T = none) :
    conf_dosif fecha_str dcode S T e (r :: rs) =
    conf_dosif fecha_str dcode S T e rs := by
  rcases h with h | h
  · by_cases hc : (r.fecha = fecha_str ∧ r.dosif_codigo = dcode ∧ notExcluded e r.id = true)
    · simp [conf_dosif, hc, h]
    · simp [conf_dosif, hc]
  · by_cases hc : (r.fecha = fecha_str ∧ r.dosif_codigo = dcode ∧ notExcluded e r.id = true)
    · cases hS : parse_hhmm r.hora_S with
      | none => simp [conf_dosif, hc, hS]
      | some s2 => simp [conf_dosif, hc, hS, h]
    · simp [conf_dosif, hc]

theorem conf_mixer_middle (fecha_str : String) (mixer_id S X : ℤ) (e : Option ℤ)
    (r : AgendaRow) (l2 : List AgendaRow)
    (h : parse_hhmm r.hora_S = none ∨ parse_hhmm r.hora_X = none) :
    ∀ l1 : List AgendaRow,
      conf_mixer fecha_str mixer_id S X e (l1 ++ r :: l2) =
      conf_mixer fecha_str mixer_id S X e (l1 ++ l2) := by
  intro l1
  induction l1 with
  | nil => simpa using conf_mixer_skip fecha_str mixer_id S X e r l2 h
  | cons x xs ih =>
    simp only [List.cons_append, conf_mixer, List.append_eq]
    rw [ih]

theorem conf_dosif_middle (fecha_str dcode : String) (S T : ℤ) (e : Option ℤ)
    (r : AgendaRow) (l2 : List AgendaRow)
    (h : parse_hhmm r.hora_S = none ∨ parse_hhmm r.hora_T = none) :
    ∀ l1 : List AgendaRow,
      conf_dosif fecha_str dcode S T e (l1 ++ r :: l2) =
      conf_dosif fecha_str dcode S T e (l1 ++ l2) := by
  intro l1
  induction l1 with
  | nil => simpa using conf_dosif_skip fecha_str dcode S T e r l2 h
  | cons x xs ih =>
    simp only [List.cons_append, conf_dosif, List.append_eq]
    rw [ih]

/-- C10: a stored booking whose `S` string (or whose `T` and `X` strings)
fail to parse as `HH:MM` is silently skipped by `check_conflicts`: the
output over any day's bookings is the same as if the row were absent, and
the detector still returns normally (it is total by construction). -/
theorem C10_unparseable_row_ignored (l1 l2 : List AgendaRow) (r : AgendaRow)
    (fecha_str : String) (mixer_id : ℤ) (dosif_codigo : String) (S T X : ℤ)
    (excl : Option ℤ)
    (h : parse_hhmm r.hora_S = none ∨
         (parse_hhmm r.hora_T = none ∧ parse_hhmm r.hora_X = none)) :
    check_conflicts (l1 ++ r :: l2) fecha_str mixer_id dosif_codigo S T X excl =
    check_conflicts (l1 ++ l2) fecha_str mixer_id dosif_codigo S T X excl := by
  have hmx : parse_hhmm r.hora_S = none ∨ parse_hhmm r.hora_X = none := by tauto
  have hds : parse_hhmm r.hora_S = none ∨ parse_hhmm r.hora_T = none := by tauto
  unfold check_conflicts
  rw [conf_mixer_middle fecha_str mixer_id S X excl r l2 hmx l1]
  by_cases hd : dosif_codigo = ""
  · simp [hd]
  · simp only [if_neg hd]
    rw [conf_dosif_middle fecha_str dosif_codigo S T excl r l2 hds l1]

/-- A stored booking with an unparseable `hora_S`. -/
def rowBadTimes : AgendaRow :=
  AgendaRow.mk 3 "cliente" "obraC" "2025-11-03" "12:00" 30 (Rat.divInt 17 2)
    "Programado" "NO" "DF-01" "DF-01" 1 "11:30" "banana" "11:43" "12:20" "12:24"
    "12:54" "12:59" "2025-11-03 12:00" 89 30

/-- Witness for C10: with the malformed row present the detector returns
exactly what it returns without it (here: one mixer and one dosing conflict
from the well-formed row). -/
theorem C10_unparseable_row_ignored_witness :
    (parse_hhmm rowBadTimes.hora_S = none ∨
      (parse_hhmm rowBadTimes.hora_T = none ∧ parse_hhmm rowBadTimes.hora_X = none)) ∧
    check_conflicts [rowOverlapping, rowBadTimes] "2025-11-03" 1 "DF-01" 600 630 630 none =
      check_conflicts [rowOverlapping] "2025-11-03" 1 "DF-01" 600 630 630 none :=
  ⟨Or.inl (by decide),
   C10_unparseable_row_ignored [rowOverlapping] [] rowBadTimes "2025-11-03" 1
     "DF-01" 600 630 630 none (Or.inl (by decide))⟩

/-! ## Claim C6 -/

theorem searchLoop_none_of_all_conflict (rows : List AgendaRow) (fecha_sel : String)
    (v : ℚ) (mi td ml tc : ℤ) (dosifs : List String) (mixers : List Mixer)
    (intervalo : ℤ) :
    ∀ (n : ℕ) (Q : ℤ),
      (∀ i : ℕ, i < n →
        try_mixers rows fecha_sel v mi td ml tc dosifs (Q + (i : ℤ) * intervalo) mixers = none) →
      searchLoop rows fecha_sel v mi td ml tc dosifs mixers intervalo n Q = none := by
  intro n
  induction n with
  | zero => intro Q h; rfl
  | succ m ih =>
    intro Q h
    have h0 := h 0 (by omega)
    simp only [Nat.cast_zero, zero_mul, add_zero] at h0
    simp only [searchLoop, h0]
    apply ih
    intro i hi
    have h1 := h (i + 1) (by omega)
    have heq : Q + intervalo + (i : ℤ) * intervalo = Q + ((i + 1 : ℕ) : ℤ) * intervalo := by
      push_cast
      ring
    rw [heq]
    exact h1

/-- C6: the feasible-slot search always terminates within the `8 * 24`
attempt bound: whenever every probed anchor `Q₀ + i·slotInterval`
(`i < 8·24`) yields a conflict for every eligible mixer and dosing unit, the
search returns `None` (Infeasible) instead of looping. -/
theorem C6_search_attempt_bound (st st1 : DBState) (intervaloQ : ℚ)
    (fecha_sel Q_str : String) (v : ℚ) (mi td ml tc : ℤ) (q0 : ℤ)
    (hp : get_param st "Intervalo_min" (some 15) = .ok (st1, intervaloQ))
    (hq : parse_hhmm Q_str = some q0)
    (hall : ∀ i : ℕ, i < 8 * 24 →
      try_mixers st1.agenda fecha_sel v mi td ml tc (dosif_habilitadas st1)
        (q0 + (i : ℤ) * pyInt intervaloQ) (mixers_auto_std st1) = none) :
    asignar_viaje_factible st fecha_sel Q_str v mi td ml tc = .ok (st1, none) := by
  unfold asignar_viaje_factible
  rw [hp]
  by_cases hempty : mixers_auto_std st1 = [] ∨ dosif_habilitadas st1 = []
  · simp [hempty]
  · simp only [if_neg hempty]
    rw [hq]
    show Except.ok (st1, searchLoop st1.agenda fecha_sel v mi td ml tc
      (dosif_habilitadas st1) (mixers_auto_std st1) (pyInt intervaloQ) (8 * 24) q0) =
      Except.ok (st1, (none : Option Asign))
    rw [searchLoop_none_of_all_conflict st1.agenda fecha_sel v mi td ml tc
      (dosif_habilitadas st1) (mixers_auto_std st1) (pyInt intervaloQ) (8 * 24) q0 hall]

/-- A booking occupying `[00:00, 23:59)` of the whole service day. -/
def fullDayRow : AgendaRow :=
  AgendaRow.mk 1 "cliente" "obraX" "2025-11-03" "08:00" 30 (Rat.divInt 17 2)
    "Programado" "NO" "DF-01" "DF-01" 1 "00:30" "00:00" "23:59" "08:20" "08:24"
    "08:54" "23:59" "2025-11-03 08:00" 1439 30

/-- A store whose single mixer is blocked all day and whose slot interval is
a full day, so that every one of the `8 * 24` probes hits the same conflict. -/
def busyDB : DBState :=
  DBState.mk [("Intervalo_min", 1440)]
    [Mixer.mk 1 "STD-03" "P-003" (Rat.divInt 17 2) "STD" 1]
    [Dosif.mk "DF-01" 1] [fullDayRow] 2 2

set_option maxRecDepth 100000 in
/-- Witness for C6: on the fully-booked day every probe conflicts and the
search returns Infeasible. -/
theorem C6_search_attempt_bound_witness :
    (∀ i : ℕ, i < 8 * 24 →
      try_mixers busyDB.agenda "2025-11-03" (Rat.divInt 17 2) 30 20 5 4
        (dosif_habilitadas busyDB) ((480 : ℤ) + (i : ℤ) * pyInt (1440 : ℚ))
        (mixers_auto_std busyDB) = none) ∧
    asignar_viaje_factible busyDB "2025-11-03" "08:00" (Rat.divInt 17 2) 30 20 5 4 =
      .ok (busyDB, none) :=
  (fun hall => ⟨hall,
    C6_search_attempt_bound busyDB busyDB (1440 : ℚ) "2025-11-03" "08:00"
      (Rat.divInt 17 2) 30 20 5 4 480 (by decide) (by decide) hall⟩) (by decide)

/-! ## Claim C7 -/

theorem get_param_preserves (st : DBState) (n : String) (d : Option ℚ)
    (st1 : DBState) (v : ℚ) (h : get_param st n d = .ok (st1, v)) :
    st1.mixers = st.mixers ∧ st1.dosif = st.dosif ∧ st1.agenda = st.agenda ∧
    st1.nextAgendaId = st.nextAgendaId ∧ st1.nextMixerId = st.nextMixerId := by
  unfold get_param at h
  cases hl : lookupParam st.parametros n with
  | some v0 =>
    rw [hl] at h
    simp only [Except.ok.injEq, Prod.mk.injEq] at h
    rw [← h.1]
    exact ⟨rfl, rfl, rfl, rfl, rfl⟩
  | none =>
    rw [hl] at h
    cases d with
    | none => simp at h
    | some d0 =>
      simp only [Except.ok.injEq, Prod.mk.injEq] at h
      rw [← h.1]
      exact ⟨rfl, rfl, rfl, rfl, rfl⟩

theorem asignar_ok_state (st : DBState) (fecha_sel Q_str : String) (v : ℚ)
    (mi td ml tc : ℤ) (st1 : DBState) (o : Option Asign)
    (h : asignar_viaje_factible st fecha_sel Q_str v mi td ml tc = .ok (st1, o)) :
    st1.mixers = st.mixers ∧ st1.dosif = st.dosif ∧ st1.agenda = st.agenda ∧
    st1.nextAgendaId = st.nextAgendaId := by
  unfold asignar_viaje_factible at h
  cases hg : get_param st "Intervalo_min" (some 15) with
  | error e => rw [hg] at h; simp at h
  | ok p =>
    obtain ⟨stA, iv⟩ := p
    rw [hg] at h
    obtain ⟨hA1, hA2, hA3, hA4, hA5⟩ := get_param_preserves st _ _ stA iv hg
    by_cases hempty : mixers_auto_std stA = [] ∨ dosif_habilitadas stA = []
    · simp only [if_pos hempty] at h
      simp only [Except.ok.injEq, Prod.mk.injEq] at h
      rw [← h.1]
      exact ⟨hA1, hA2, hA3, hA4⟩
    · simp only [if_neg hempty] at h
      cases hq : parse_hhmm Q_str with
      | none => rw [hq] at h; simp at h
      | some q0 =>
        rw [hq] at h
        simp only [Except.ok.injEq, Prod.mk.injEq] at h
        rw [← h.1]
        exact ⟨hA1, hA2, hA3, hA4⟩

theorem planLoop_agenda_mono (cliente proyecto fecha_sel : String)
    (mi td ml tc : ℤ) (req : String) :
    ∀ (fuel : ℕ) (st : DBState) (Q : ℤ) (r : ℚ) (acc : List Creado)
      (st2 : DBState) (res : Except String (List Creado)),
      planLoop cliente proyecto fecha_sel mi td ml tc req fuel st Q r acc =
        some (st2, res) →
      ∀ row ∈ st.agenda, row ∈ st2.agenda := by
  intro fuel
  induction fuel with
  | zero => intro st Q r acc st2 res h; simp [planLoop] at h
  | succ fuel ih =>
    intro st Q r acc st2 res h
    rw [planLoop] at h
    by_cases hre : Rat.divInt 1 1000 < r
    · rw [if_pos hre] at h
      cases ha : asignar_viaje_factible st fecha_sel (toHHMM (tod Q)) r mi td ml tc with
      | error e =>
        rw [ha] at h
        simp only [Option.some.injEq, Prod.mk.injEq] at h
        rw [← h.1]
        exact fun row hrow => hrow
      | ok p =>
        obtain ⟨st1, o⟩ := p
        rw [ha] at h
        obtain ⟨hm1, hd1, hag1, hna1⟩ := asignar_ok_state st _ _ r mi td ml tc st1 o ha
        cases o with
        | none =>
          simp only [Option.some.injEq, Prod.mk.injEq] at h
          rw [← h.1]
          intro row hrow
          rw [hag1]
          exact hrow
        | some a =>
          intro row hrow
          refine ih _ _ _ _ _ _ h row ?_
          show row ∈ (insertAgenda st1
            (mkAgendaRow st1.nextAgendaId cliente proyecto fecha_sel mi req a)).agenda
          simp only [insertAgenda, List.mem_append]
          left
          rw [hag1]
          exact hrow
    · rw [if_neg hre] at h
      simp only [Option.some.injEq, Prod.mk.injEq] at h
      rw [← h.1]
      exact fun row hrow => hrow

/-- C7: when the feasible-slot search fails in a later iteration of the
planning loop after an earlier iteration already succeeded and persisted its
booking, the loop aborts with the scheduling-failure error, and both every
pre-existing booking and the booking persisted by the earlier iteration are
still in the store — nothing is rolled back. -/
theorem C7_no_rollback_on_abort (cliente proyecto fecha_sel : String)
    (mi td ml tc : ℤ) (req : String) (fuel : ℕ) (st st1 st2 : DBState)
    (Q : ℤ) (restante : ℚ) (acc : List Creado) (a : Asign) (msg : String)
    (h1 : Rat.divInt 1 1000 < restante)
    (h2 : asignar_viaje_factible st fecha_sel (toHHMM (tod Q)) restante mi td ml tc =
      .ok (st1, some a))
    (h3 : planLoop cliente proyecto fecha_sel mi td ml tc req (fuel + 1) st Q
      restante acc = some (st2, .error msg)) :
    (∀ row ∈ st.agenda, row ∈ st2.agenda) ∧
    mkAgendaRow st1.nextAgendaId cliente proyecto fecha_sel mi req a ∈ st2.agenda := by
  rw [planLoop, if_pos h1, h2] at h3
  have hmono := planLoop_agenda_mono cliente proyecto fecha_sel mi td ml tc req
    fuel _ _ _ _ _ _ h3
  have hag : st1.agenda = st.agenda :=
    (asignar_ok_state st _ _ restante mi td ml tc st1 (some a) h2).2.2.1
  constructor
  · intro row hrow
    apply hmono
    show row ∈ (insertAgenda st1
      (mkAgendaRow st1.nextAgendaId cliente proyecto fecha_sel mi req a)).agenda
    simp only [insertAgenda, List.mem_append]
    left
    rw [hag]
    exact hrow
  · apply hmono
    show _ ∈ (insertAgenda st1
      (mkAgendaRow st1.nextAgendaId cliente proyecto fecha_sel mi req a)).agenda
    simp [insertAgenda]

/-- Parameters preset, one 8.5 m³ STD mixer, one dosing unit, empty agenda,
slot interval one full day. -/
def planDB : DBState :=
  DBState.mk
    [("Intervalo_min", 1440), ("Margen_lavado_min", 5), ("Tiempo_cambio_obra_min", 4)]
    [Mixer.mk 1 "STD-03" "P-003" (Rat.divInt 17 2) "STD" 1]
    [Dosif.mk "DF-01" 1] [] 1 1

/-- The assignment found by the first loop iteration on `planDB`. -/
def asign1 : Asign :=
  Asign.mk 1 "DF-01" (Rat.divInt 17 2) 480 450 439 450 500 504 534 539

set_option maxRecDepth 400000 in
/-- Witness for C7: planning 20 m³ with one 8.5 m³ mixer books the first
trip, the second iteration finds no slot, the loop aborts with the
scheduling failure, and the first trip's booking is still in the store. -/
theorem C7_no_rollback_on_abort_witness :
    (Rat.divInt 1 1000 < (20 : ℚ)) ∧
    (asignar_viaje_factible planDB "2025-11-03" (toHHMM (tod 480)) 20 30 20 5 4 =
      .ok (planDB, some asign1)) ∧
    (planLoop "CONETSA" "Obra1" "2025-11-03" 30 20 5 4 "NO" 2 planDB 480 20 [] =
      some (insertAgenda planDB
        (mkAgendaRow 1 "CONETSA" "Obra1" "2025-11-03" 30 "NO" asign1),
        .error "No se encontró disponibilidad (mixers/dosif ocupados).")) ∧
    ((∀ row ∈ planDB.agenda,
        row ∈ (insertAgenda planDB
          (mkAgendaRow 1 "CONETSA" "Obra1" "2025-11-03" 30 "NO" asign1)).agenda) ∧
      mkAgendaRow planDB.nextAgendaId "CONETSA" "Obra1" "2025-11-03" 30 "NO" asign1 ∈
        (insertAgenda planDB
          (mkAgendaRow 1 "CONETSA" "Obra1" "2025-11-03" 30 "NO" asign1)).agenda) :=
  (fun h2 h3 => ⟨by decide, h2, h3,
    C7_no_rollback_on_abort "CONETSA" "Obra1" "2025-11-03" 30 20 5 4 "NO" 1
      planDB planDB
      (insertAgenda planDB (mkAgendaRow 1 "CONETSA" "Obra1" "2025-11-03" 30 "NO" asign1))
      480 20 [] asign1 "No se encontró disponibilidad (mixers/dosif ocupados)."
      (by decide) h2 h3⟩)
    (by decide) (by decide)

/-! ## Claim C5 -/

/-- The sum of the `m3` fields of the result rows, via `qadd` so that it
evaluates. -/
def sumM3 : List Creado → ℚ
  | [] => 0
  | c :: rest => qadd c.m3 (sumM3 rest)

theorem sumM3_eq (l : List Creado) : sumM3 l = (l.map Creado.m3).sum := by
  induction l with
  | nil => rfl
  | cons c rest ih => simp [sumM3, qadd_eq, ih]

/-- Each trip in turn takes `min(remaining, capacity)` of some mixer of the
pool, the remaining volume decreasing accordingly. -/
def tripVolsSpec (mixers : List Mixer) : ℚ → List Creado → Prop
  | _, [] => True
  | r, c :: rest =>
    (∃ m ∈ mixers, c.Mixer_ID = m.id ∧ c.m3 = min r m.capacidad_m3) ∧
    tripVolsSpec mixers (r - c.m3) rest

theorem tripVolsSpec_caps (mixers : List Mixer) :
    ∀ (l : List Creado) (r : ℚ), tripVolsSpec mixers r l →
      ∀ c ∈ l, ∃ m ∈ mixers, c.Mixer_ID = m.id ∧ c.m3 ≤ m.capacidad_m3 := by
  intro l
  induction l with
  | nil => intro r _ c hc; simp at hc
  | cons c0 rest ih =>
    intro r h c hc
    obtain ⟨⟨m, hm, hid, hvol⟩, hrest⟩ := h
    rcases List.mem_cons.1 hc with rfl | hc2
    · exact ⟨m, hm, hid, by rw [hvol]; exact min_le_right _ _⟩
    · exact ih (r - c0.m3) hrest c hc2

theorem try_mixers_some (rows : List AgendaRow) (fecha_sel : String) (v : ℚ)
    (mi td ml tc : ℤ) (ds : List String) (Q : ℤ) :
    ∀ (ms : List Mixer) (a : Asign),
      try_mixers rows fecha_sel v mi td ml tc ds Q ms = some a →
      ∃ m ∈ ms, a.mixer_id = m.id ∧ a.volumen_m3 = min v m.capacidad_m3 := by
  intro ms
  induction ms with
  | nil => intro a h; simp [try_mixers] at h
  | cons m ms ih =>
    intro a h
    simp only [try_mixers] at h
    rcases h7 : calcular_tiempos_min (tod Q) mi (min v m.capacidad_m3) td ml tc with
      ⟨R, S, T, U, V, W, X⟩
    simp only [h7] at h
    cases hd : try_dosifs rows fecha_sel m.id (tod S) (tod T) (tod X) ds with
    | some dcode =>
      simp only [hd, Option.some.injEq] at h
      refine ⟨m, List.mem_cons_self m ms, ?_, ?_⟩
      · rw [← h]
      · rw [← h]
    | none =>
      simp only [hd] at h
      obtain ⟨m2, hm2, hx⟩ := ih a h
      exact ⟨m2, List.mem_cons_of_mem m hm2, hx⟩

theorem searchLoop_some (rows : List AgendaRow) (fecha_sel : String) (v : ℚ)
    (mi td ml tc : ℤ) (ds : List String) (ms : List Mixer) (intervalo : ℤ) :
    ∀ (n : ℕ) (Q : ℤ) (a : Asign),
      searchLoop rows fecha_sel v mi td ml tc ds ms intervalo n Q = some a →
      ∃ Q2, try_mixers rows fecha_sel v mi td ml tc ds Q2 ms = some a := by
  intro n
  induction n with
  | zero => intro Q a h; simp [searchLoop] at h
  | succ n ih =>
    intro Q a h
    simp only [searchLoop] at h
    cases ht : try_mixers rows fecha_sel v mi td ml tc ds Q ms with
    | some b =>
      simp only [ht, Option.some.injEq] at h
      exact ⟨Q, by rw [ht, h]⟩
    | none =>
      simp only [ht] at h
      exact ih _ _ h

theorem asignar_some_assign (st : DBState) (fecha_sel Q_str : String) (v : ℚ)
    (mi td ml tc : ℤ) (st1 : DBState) (a : Asign)
    (h : asignar_viaje_factible st fecha_sel Q_str v mi td ml tc = .ok (st1, some a)) :
    ∃ m ∈ mixers_auto_std st1, a.mixer_id = m.id ∧ a.volumen_m3 = min v m.capacidad_m3 := by
  unfold asignar_viaje_factible at h
  cases hg : get_param st "Intervalo_min" (some 15) with
  | error e => rw [hg] at h; simp at h
  | ok p =>
    obtain ⟨stA, iv⟩ := p
    rw [hg] at h
    by_cases hempty : mixers_auto_std stA = [] ∨ dosif_habilitadas stA = []
    · simp only [if_pos hempty] at h
      simp at h
    · simp only [if_neg hempty] at h
      cases hq : parse_hhmm Q_str with
      | none => simp only [hq] at h; simp at h
      | some q0 =>
        simp only [hq] at h
        simp only [Except.ok.injEq, Prod.mk.injEq] at h
        obtain ⟨hst, hs⟩ := h
        subst hst
        obtain ⟨Q2, htry⟩ := searchLoop_some _ _ _ _ _ _ _ _ _ _ _ _ _ hs
        exact try_mixers_some _ _ _ _ _ _ _ _ _ _ _ htry

theorem mem_mixers_auto_std (st : DBState) (m : Mixer) :
    m ∈ mixers_auto_std st ↔
      m ∈ st.mixers ∧ m.habilitado = 1 ∧ upStr m.tipo ≠ "SANY" := by
  unfold mixers_auto_std
  rw [List.mem_filter, mem_sortBy, List.mem_filter]
  simp [and_assoc]

theorem get_param_default_ok (st : DBState) (n : String) (d : ℚ) :
    ∃ st1 v, get_param st n (some d) = .ok (st1, v) ∧
      st1.mixers = st.mixers ∧ st1.dosif = st.dosif ∧ st1.agenda = st.agenda ∧
      st1.nextAgendaId = st.nextAgendaId := by
  unfold get_param
  cases h : lookupParam st.parametros n with
  | some v => exact ⟨st, v, rfl, rfl, rfl, rfl, rfl⟩
  | none => exact ⟨_, d, rfl, rfl, rfl, rfl, rfl⟩

theorem planLoop_ok_spec (cliente proyecto fecha_sel : String)
    (mi td ml tc : ℤ) (req : String) :
    ∀ (fuel : ℕ) (st : DBState) (Q : ℤ) (r : ℚ) (acc : List Creado)
      (st2 : DBState) (out : List Creado),
      (∀ m ∈ st.mixers, 0 ≤ m.capacidad_m3) → 0 ≤ r →
      planLoop cliente proyecto fecha_sel mi td ml tc req fuel st Q r acc =
        some (st2, .ok out) →
      ∃ tail rEnd, out = acc ++ tail ∧ tripVolsSpec st.mixers r tail ∧
        (tail.map Creado.m3).sum = r - rEnd ∧ 0 ≤ rEnd ∧ rEnd ≤ 1 / 1000 := by
  intro fuel
  induction fuel with
  | zero => intro st Q r acc st2 out hcap hr h; simp [planLoop] at h
  | succ fuel ih =>
    intro st Q r acc st2 out hcap hr h
    rw [planLoop] at h
    by_cases hre : Rat.divInt 1 1000 < r
    · rw [if_pos hre] at h
      cases ha : asignar_viaje_factible st fecha_sel (toHHMM (tod Q)) r mi td ml tc with
      | error e => simp only [ha] at h; simp at h
      | ok p =>
        obtain ⟨st1, o⟩ := p
        simp only [ha] at h
        cases o with
        | none => simp at h
        | some a =>
          obtain ⟨hmx1, hdo1, hag1, hna1⟩ :=
            asignar_ok_state st _ _ r mi td ml tc st1 (some a) ha
          obtain ⟨m, hm_mem, hmid, hvol⟩ :=
            asignar_some_assign st _ _ r mi td ml tc st1 a ha
          have hm_st : m ∈ st.mixers := by
            have h2 := ((mem_mixers_auto_std st1 m).1 hm_mem).1
            rwa [hmx1] at h2
          have hcapm : 0 ≤ m.capacidad_m3 := hcap m hm_st
          have hvol_nonneg : 0 ≤ a.volumen_m3 := by
            rw [hvol]; exact le_min hr hcapm
          have hvol_le_r : a.volumen_m3 ≤ r := by
            rw [hvol]; exact min_le_left _ _
          have hmax : max 0 (qsub r a.volumen_m3) = r - a.volumen_m3 := by
            rw [qsub_eq]; exact max_eq_right (by linarith)
          have hmxins : (insertAgenda st1
            (mkAgendaRow st1.nextAgendaId cliente proyecto fecha_sel mi req a)).mixers =
              st.mixers := hmx1
          have hcap2 : ∀ mm ∈ (insertAgenda st1
              (mkAgendaRow st1.nextAgendaId cliente proyecto fecha_sel mi req a)).mixers,
              0 ≤ mm.capacidad_m3 := by
            rw [hmxins]; exact hcap
          obtain ⟨tail, rEnd, hout, hspec, hsum, h0, h1⟩ :=
            ih _ _ _ _ _ _ hcap2 (le_max_left 0 _) h
          rw [hmax] at hspec hsum
          refine ⟨mkCreado a :: tail, rEnd, ?_, ?_, ?_, h0, h1⟩
          · rw [hout]; simp
          · refine ⟨⟨m, hm_st, ?_, ?_⟩, ?_⟩
            · show (mkCreado a).Mixer_ID = m.id
              simpa [mkCreado] using hmid
            · show (mkCreado a).m3 = min r m.capacidad_m3
              simpa [mkCreado] using hvol
            · show tripVolsSpec st.mixers (r - (mkCreado a).m3) tail
              have hm3 : (mkCreado a).m3 = a.volumen_m3 := rfl
              rw [hm3]
              rwa [hmxins] at hspec
          · simp only [List.map_cons, List.sum_cons]
            rw [hsum]
            have hm3 : (mkCreado a).m3 = a.volumen_m3 := rfl
            rw [hm3]
            ring
    · rw [if_neg hre] at h
      simp only [Option.some.injEq, Prod.mk.injEq, Except.ok.injEq] at h
      refine ⟨[], r, by simp [← h.2], ?_, by simp, hr, ?_⟩
      · exact trivial
      · have := le_of_not_lt hre
        rwa [epsilon_eq] at this

/-- C5 (amended): when the planner succeeds on a pool of non-negatively
sized mixers and a total above the ε-threshold, every created trip takes
`min(remaining, capacity)` of its assigned mixer (hence no more than that
mixer's capacity), and the trip volumes sum to within ε = 0.001 of the
requested total (at least `total − 0.001`, at most `total`). -/
theorem C5_trip_volumes (st : DBState)
    (cliente proyecto fecha_sel hora_Q_ini : String) (volumen_total : ℚ)
    (mi td : ℤ) (req : String) (fuel : ℕ) (st2 : DBState) (out : List Creado)
    (hcap : ∀ m ∈ st.mixers, 0 ≤ m.capacidad_m3)
    (htot : Rat.divInt 1 1000 < volumen_total)
    (h : planificar_proyecto_auto st cliente proyecto fecha_sel hora_Q_ini
      volumen_total mi td req fuel = some (st2, .ok out)) :
    tripVolsSpec st.mixers volumen_total out ∧
    (∀ c ∈ out, ∃ m ∈ st.mixers, c.Mixer_ID = m.id ∧ c.m3 ≤ m.capacidad_m3) ∧
    volumen_total - 1 / 1000 ≤ (out.map Creado.m3).sum ∧
    (out.map Creado.m3).sum ≤ volumen_total := by
  unfold planificar_proyecto_auto at h
  obtain ⟨stA, vA, hgA, hA1, hA2, hA3, hA4⟩ :=
    get_param_default_ok st "Margen_lavado_min" 5
  simp only [hgA] at h
  obtain ⟨stB, vB, hgB, hB1, hB2, hB3, hB4⟩ :=
    get_param_default_ok stA "Tiempo_cambio_obra_min" 4
  simp only [hgB] at h
  by_cases hlen : (mixers_auto_std stB).length = 0
  · simp only [if_pos hlen] at h; simp at h
  · simp only [if_neg hlen] at h
    cases hq : parse_hhmm hora_Q_ini with
    | none => simp only [hq] at h; simp at h
    | some q0 =>
      simp only [hq] at h
      have hmxB : stB.mixers = st.mixers := by rw [hB1, hA1]
      have hcapB : ∀ m ∈ stB.mixers, 0 ≤ m.capacidad_m3 := by
        rw [hmxB]; exact hcap
      have hpos : (0 : ℚ) < volumen_total := by
        have heps : (0 : ℚ) < Rat.divInt 1 1000 := by rw [epsilon_eq]; norm_num
        linarith
      obtain ⟨tail, rEnd, hout, hspec, hsum, hr0, hr1⟩ :=
        planLoop_ok_spec cliente proyecto fecha_sel mi td (pyInt vA) (pyInt vB)
          req fuel stB q0 volumen_total [] st2 out hcapB (le_of_lt hpos) h
      simp only [List.nil_append] at hout
      rw [hout]
      rw [hmxB] at hspec
      refine ⟨hspec, tripVolsSpec_caps st.mixers tail volumen_total hspec, ?_, ?_⟩
      · rw [hsum]; linarith
      · rw [hsum]; linarith

/-- Parameters preset, one 10 m³ STD mixer, one dosing unit, empty agenda. -/
def planDB5 : DBState :=
  DBState.mk
    [("Intervalo_min", 15), ("Margen_lavado_min", 5), ("Tiempo_cambio_obra_min", 4)]
    [Mixer.mk 1 "STD-03" "P-003" 10 "STD" 1]
    [Dosif.mk "DF-01" 1] [] 1 1

/-- First trip of the 20 m³ plan on `planDB5` (10 m³ at `Q = 08:00`). -/
def a51 : Asign := Asign.mk 1 "DF-01" 10 480 450 437 450 500 504 534 539

/-- Second trip of the 20 m³ plan on `planDB5` (10 m³ at `Q = 09:50`, the
first slot clearing the first trip's mixer window). -/
def a52 : Asign := Asign.mk 1 "DF-01" 10 590 560 547 560 610 614 644 649

/-- The result rows of the 20 m³ plan on `planDB5`. -/
def outC5 : List Creado := [mkCreado a51, mkCreado a52]

/-- The store after the 20 m³ plan on `planDB5`. -/
def st2C5 : DBState :=
  insertAgenda
    (insertAgenda planDB5 (mkAgendaRow 1 "CONETSA" "Obra2" "2025-11-03" 30 "NO" a51))
    (mkAgendaRow 2 "CONETSA" "Obra2" "2025-11-03" 30 "NO" a52)

set_option maxRecDepth 400000 in
/-- Witness for C5: planning 20 m³ against a 10 m³ unit yields two 10 m³
trips whose volumes satisfy the per-iteration `min` rule and sum into
`[20 − 0.001, 20]` (here exactly 20). -/
theorem C5_trip_volumes_witness :
    (∀ m ∈ planDB5.mixers, 0 ≤ m.capacidad_m3) ∧
    (Rat.divInt 1 1000 < (20 : ℚ)) ∧
    (planificar_proyecto_auto planDB5 "CONETSA" "Obra2" "2025-11-03" "08:00"
      20 30 20 "NO" 3 = some (st2C5, .ok outC5)) ∧
    (tripVolsSpec planDB5.mixers 20 outC5 ∧
      (∀ c ∈ outC5, ∃ m ∈ planDB5.mixers, c.Mixer_ID = m.id ∧ c.m3 ≤ m.capacidad_m3) ∧
      20 - 1 / 1000 ≤ (outC5.map Creado.m3).sum ∧
      (outC5.map Creado.m3).sum ≤ 20) :=
  (fun hplan => ⟨by decide, by decide, hplan,
    C5_trip_volumes planDB5 "CONETSA" "Obra2" "2025-11-03" "08:00" 20 30 20 "NO" 3
      st2C5 outC5 (by decide) (by decide) hplan⟩) (by decide)

/-- Projection of a planner result onto the sum of its trip volumes. -/
def planVols : Option (DBState × Except String (List Creado)) → Option ℚ
  | some (_, .ok out) => some (sumM3 out)
  | _ => none

set_option maxRecDepth 400000 in
/-- Counterexample to C5 as stated: planning `10.0005` m³ (which exceeds the
ε-threshold `0.001`) against a 10 m³ unit succeeds with a single 10 m³ trip,
so the trip volumes sum to `10 ≠ 10.0005` — the leftover `0.0005` below ε is
dropped, refuting "the trip volumes sum to exactly the requested total". -/
theorem C5_trip_volumes_counterexample :
    planVols (planificar_proyecto_auto planDB5 "CONETSA" "Obra3" "2025-11-03"
      "08:00" (Rat.divInt 20001 2000) 30 20 "NO" 2) = some 10 ∧
    Rat.divInt 1 1000 < Rat.divInt 20001 2000 ∧
    (10 : ℚ) ≠ Rat.divInt 20001 2000 := by decide
